import Mathlib

/-!
Verification of the Glenmore Wellness Clinic scheduling core.

The definitions below are a shallow embedding of the appointment-scheduling
code of the repository:

* `Clinic.Backend2` embeds `backend2/repositories/appointment_repository.py`
  (slot listing, conflict checking, walk-in allocation, cancellation) over an
  explicit store, with times as minutes since midnight, dates and ids as `Nat`.
  The `AppointmentStatus` values are the ones used by the repository and
  declared in `backend2/schemas/appointment.py`.
* `Clinic.Backend` embeds the Flask service layer
  `backend/services/appointment.py` (`handle_add_appointment`), with the
  database passed explicitly and the `get_next_sequence` counter carried in it.
* `Clinic.ClinicApi` embeds `backend/clinic_api/services/weekly_coverage.py`
  (`StaffAssignmentCRUD.create`) and
  `backend/clinic_api/services/appointment.py` (`AppointmentCRUD.update`).
* `Clinic.Raw` embeds `backend/appointment.py` (`update_appointment`) over
  raw key/value documents, mirroring Mongo `$set` semantics.

Asynchronous I/O is modelled by explicit state passing; `date.today()` and
`datetime.now()` are passed as parameters.  Fields the claims never mention
(audit timestamps, free-text reasons, notes) are omitted from the records.
`BaseRepository.find_many` paginates with defaults `skip=0, limit=100`
(applied after any sort), so each of its call sites sees only the first 100
matching documents; this is modelled as a `take 100` wherever `find_many` is
embedded.
-/

namespace Clinic

/-- Models Mongo `find_one_and_update` (with `ReturnDocument.AFTER`): update the
first element satisfying `p` with `f`, returning the updated element (if any)
and the updated list. -/
def updateFirst {α : Type} (p : α → Bool) (f : α → α) : List α → Option α × List α
  | [] => (none, [])
  | a :: l =>
    if p a then (some (f a), f a :: l)
    else
      let r := updateFirst p f l
      (r.1, a :: r.2)

theorem updateFirst_eq_some {α : Type} (p : α → Bool) (f : α → α) (l : List α) (a : α)
    (h : (updateFirst p f l).1 = some a) :
    ∃ b, b ∈ l ∧ p b = true ∧ a = f b ∧ a ∈ (updateFirst p f l).2 := by
  induction l with
  | nil => simp [updateFirst] at h
  | cons x l ih =>
    by_cases hx : p x = true
    · refine ⟨x, by simp, hx, ?_, ?_⟩ <;>
        simp_all [updateFirst]
    · simp only [updateFirst, hx, Bool.false_eq_true, if_false] at h ⊢
      obtain ⟨b, hb, hpb, hab, hmem⟩ := ih h
      exact ⟨b, by simp [hb], hpb, hab, by simp [hmem]⟩

theorem updateFirst_forall₂ {α : Type} (R : α → α → Prop) (p : α → Bool) (f : α → α)
    (l : List α) (hrefl : ∀ x, R x x) (hf : ∀ x, R x (f x)) :
    List.Forall₂ R l (updateFirst p f l).2 := by
  induction l with
  | nil => simp [updateFirst]
  | cons x l ih =>
    by_cases hx : p x = true
    · simp only [updateFirst, hx, if_true]
      exact List.Forall₂.cons (hf x) (List.forall₂_same.mpr fun y _ => hrefl y)
    · simp only [updateFirst, hx, Bool.false_eq_true, if_false]
      exact List.Forall₂.cons (hrefl x) ih

namespace Backend2

/-- Appointment statuses, from `backend2/schemas/appointment.py`. -/
inductive AppointmentStatus : Type
  | scheduled
  | confirmed
  | inProgress
  | completed
  | cancelled
  | noShow
  | rescheduled
deriving DecidableEq

/-- Appointment types used by the repository (`regular` default, `walk_in` for
walk-ins), from `backend2/schemas/appointment.py`. -/
inductive AppointmentType : Type
  | regular
  | walkIn
deriving DecidableEq

/-- An `Appointment` document as read and written by
`backend2/repositories/appointment_repository.py`.  Times are minutes since
midnight; dates and ids are opaque `Nat`s. -/
structure Appointment : Type where
  appointment_id : Nat
  patient_id : Nat
  staff_id : Nat
  scheduled_date : Nat
  scheduled_start : Nat
  scheduled_end : Nat
  appointment_type : AppointmentType
  status : AppointmentStatus
  is_walk_in : Bool
deriving DecidableEq

/-- A `PractitionerDailySchedule` document, with the fields the repository
reads (`start_time`, `end_time`, `is_available`, `available_for_walk_ins`,
`current_walk_ins`, `max_walk_ins`, `break_slots`). -/
structure PractitionerDailySchedule : Type where
  staff_id : Nat
  schedule_date : Nat
  start_time : Nat
  end_time : Nat
  is_available : Bool
  available_for_walk_ins : Bool
  current_walk_ins : Nat
  max_walk_ins : Nat
  break_slots : List (Nat × Nat)
deriving DecidableEq

/-- The document store: the `Appointment` and `PractitionerDailySchedule`
collections, plus the auto-id counter used by `BaseRepository.create`. -/
structure Store : Type where
  appointments : List Appointment
  schedules : List PractitionerDailySchedule
  next_id : Nat
deriving DecidableEq

/-- An available slot as produced by `find_available_slots`. -/
structure Slot : Type where
  start_time : Nat
  end_time : Nat
  staff_id : Nat
  date : Nat
deriving DecidableEq

/-- Embeds `PractitionerDailyScheduleRepository.find_by_staff_and_date`: first
schedule matching staff and date. -/
def find_by_staff_and_date (store : Store) (staff_id date : Nat) :
    Option PractitionerDailySchedule :=
  store.schedules.find? fun s =>
    decide (s.staff_id = staff_id) && decide (s.schedule_date = date)

/-- Stable insertion of an appointment into a list sorted by
`scheduled_start` (models the Mongo ascending sort). -/
def insertByStart (a : Appointment) : List Appointment → List Appointment
  | [] => [a]
  | b :: l =>
    if a.scheduled_start < b.scheduled_start then a :: b :: l
    else b :: insertByStart a l

/-- Sort appointments by `scheduled_start` ascending. -/
def sortByStart : List Appointment → List Appointment
  | [] => []
  | a :: l => insertByStart a (sortByStart l)

/-- Embeds `AppointmentRepository.find_staff_appointments`: appointments of a staff
member on a date whose status is not `CANCELLED`, sorted by start time;
`find_many`'s default `limit=100` is applied after the sort, so only the first
100 documents are returned. -/
def find_staff_appointments (store : Store) (staff_id date : Nat) :
    List Appointment :=
  (sortByStart <| store.appointments.filter fun a =>
    decide (a.staff_id = staff_id) && decide (a.scheduled_date = date) &&
      !(decide (a.status = AppointmentStatus.cancelled))).take 100

/-- The candidate loop of `find_available_slots`: starting at `current`, while
`current + duration ≤ end_time`, emit the slot unless it overlaps an existing
appointment or a break, and advance by the fixed 10-minute step.  The loop in
the source is driven by the `while` condition alone; `fuel` is an upper bound
on the number of iterations, consumed one unit per iteration. -/
def slotLoop (staff_id date duration end_time : Nat) (appointments : List Appointment)
    (break_slots : List (Nat × Nat)) : Nat → Nat → List Slot
  | 0, _ => []
  | fuel + 1, current =>
    if current + duration ≤ end_time then
      let slot_end := current + duration
      let apptConflict := appointments.any fun a =>
        !(decide (slot_end ≤ a.scheduled_start) || decide (a.scheduled_end ≤ current))
      let breakConflict := break_slots.any fun b =>
        !(decide (slot_end ≤ b.1) || decide (b.2 ≤ current))
      let rest := slotLoop staff_id date duration end_time appointments break_slots
        fuel (current + 10)
      if apptConflict || breakConflict then rest
      else ⟨current, slot_end, staff_id, date⟩ :: rest
    else []

/-- Embeds `AppointmentRepository.find_available_slots`: returns `[]` when the staff
member has no schedule for the date or the schedule is not available;
otherwise walks the 10-minute candidate grid of the shift, dropping candidates
that overlap a non-cancelled appointment or a break. -/
def find_available_slots (store : Store) (staff_id date : Nat)
    (duration_minutes : Nat := 10) : List Slot :=
  match find_by_staff_and_date store staff_id date with
  | none => []
  | some schedule =>
    if !schedule.is_available then []
    else
      slotLoop staff_id date duration_minutes schedule.end_time
        (find_staff_appointments store staff_id date) schedule.break_slots
        (schedule.end_time + 1) schedule.start_time

/-- Embeds `AppointmentRepository.check_appointment_conflict`: true when some
appointment among the first 100 matching documents (`find_many`'s default
`skip=0, limit=100`) of the staff member on the date, with status other than
`CANCELLED` and id different from `exclude_appointment_id`, overlaps the
proposed `[start_time, end_time)` interval in the half-open sense. -/
def check_appointment_conflict (store : Store) (staff_id date start_time end_time : Nat)
    (exclude_appointment_id : Option Nat) : Bool :=
  let appointments := (store.appointments.filter fun a =>
    decide (a.staff_id = staff_id) && decide (a.scheduled_date = date) &&
      !(decide (a.status = AppointmentStatus.cancelled)) &&
      (match exclude_appointment_id with
       | none => true
       | some e => !(decide (a.appointment_id = e)))).take 100
  appointments.any fun a =>
    !(decide (end_time ≤ a.scheduled_start) || decide (a.scheduled_end ≤ start_time))

/-- The data handed to `create_appointment` (id assigned by the repository). -/
structure AppointmentData : Type where
  patient_id : Nat
  staff_id : Nat
  scheduled_date : Nat
  scheduled_start : Nat
  scheduled_end : Nat
  appointment_type : AppointmentType
  status : AppointmentStatus
  is_walk_in : Bool
deriving DecidableEq

/-- Embeds `AppointmentRepository.create_appointment` via `BaseRepository.create`:
assigns the next auto id and inserts the document; no conflict check. -/
def create_appointment (store : Store) (d : AppointmentData) : Appointment × Store :=
  let a : Appointment :=
    { appointment_id := store.next_id
      patient_id := d.patient_id
      staff_id := d.staff_id
      scheduled_date := d.scheduled_date
      scheduled_start := d.scheduled_start
      scheduled_end := d.scheduled_end
      appointment_type := d.appointment_type
      status := d.status
      is_walk_in := d.is_walk_in }
  (a, { store with appointments := store.appointments ++ [a], next_id := store.next_id + 1 })

/-- Embeds `AppointmentRepository.cancel_appointment` via `update_by_id`: set the
status of the first appointment with the given id to `CANCELLED`,
unconditionally.  (The audit fields also written — `cancelled_at`,
`cancelled_by`, `cancellation_reason` — are not modelled.) -/
def cancel_appointment (store : Store) (appointment_id : Nat) :
    Option Appointment × Store :=
  let r := updateFirst (fun a => decide (a.appointment_id = appointment_id))
    (fun a => { a with status := AppointmentStatus.cancelled }) store.appointments
  (r.1, { store with appointments := r.2 })

/-- Embeds `AppointmentRepository.mark_no_show` via `update_by_id`: set the status of
the first appointment with the given id to `NO_SHOW`, unconditionally. -/
def mark_no_show (store : Store) (appointment_id : Nat) :
    Option Appointment × Store :=
  let r := updateFirst (fun a => decide (a.appointment_id = appointment_id))
    (fun a => { a with status := AppointmentStatus.noShow }) store.appointments
  (r.1, { store with appointments := r.2 })

/-- Embeds `PractitionerDailyScheduleRepository.find_available_for_walk_ins`:
schedules for the date that are available, walk-in enabled, and under the
walk-in capacity (`current_walk_ins < max_walk_ins`), in store order, capped
at the first 100 matches by `find_many`'s default `limit=100`. -/
def find_available_for_walk_ins (store : Store) (date : Nat) :
    List PractitionerDailySchedule :=
  (store.schedules.filter fun s =>
    decide (s.schedule_date = date) && s.is_available && s.available_for_walk_ins &&
      decide (s.current_walk_ins < s.max_walk_ins)).take 100

/-- The slot filter of `create_walk_in_appointment`:
`[s for s in slots if s["start_time"] >= now]`. -/
def walkInCandidateSlots (store : Store) (today now staff_id : Nat) : List Slot :=
  (find_available_slots store staff_id today 10).filter fun s =>
    decide (now ≤ s.start_time)

/-- The practitioner loop of `create_walk_in_appointment`'s no-preference
branch: take the first practitioner (in the given order) with any candidate
slot, together with that practitioner's first candidate slot. -/
def firstWithSlot (store : Store) (today now : Nat) :
    List PractitionerDailySchedule → Option (Nat × Slot)
  | [] => none
  | p :: ps =>
    match walkInCandidateSlots store today now p.staff_id with
    | slot :: _ => some (p.staff_id, slot)
    | [] => firstWithSlot store today now ps

/-- Embeds `AppointmentRepository.create_walk_in_appointment`: with a preferred staff
member, take that practitioner's first available slot at or after `now`;
otherwise scan `find_available_for_walk_ins` in store order and take the first
practitioner with any such slot.  On success, insert a `WALK_IN`/`CONFIRMED`
appointment; the schedule collection is not touched. -/
def create_walk_in_appointment (store : Store) (patient_id : Nat)
    (preferred_staff_id : Option Nat) (today now : Nat) :
    Option Appointment × Store :=
  let pick : Option (Nat × Slot) :=
    match preferred_staff_id with
    | some p =>
      match walkInCandidateSlots store today now p with
      | slot :: _ => some (p, slot)
      | [] => none
    | none => firstWithSlot store today now (find_available_for_walk_ins store today)
  match pick with
  | none => (none, store)
  | some (staff_id, slot) =>
    let r := create_appointment store
      { patient_id := patient_id
        staff_id := staff_id
        scheduled_date := today
        scheduled_start := slot.start_time
        scheduled_end := slot.end_time
        appointment_type := AppointmentType.walkIn
        status := AppointmentStatus.confirmed
        is_walk_in := true }
    (some r.1, r.2)

end Backend2

namespace Backend

/-- An `Appointment` document of the Flask layer
(`backend/services/appointment.py`): times are minutes since midnight, the
date an opaque `Nat`, `type` the literal string stored by the handlers. -/
structure BAppointment : Type where
  appointment_id : Nat
  staff_id : Nat
  patient_id : Nat
  date : Nat
  start_time : Nat
  end_time : Nat
  type : String
deriving DecidableEq

/-- The Mongo database as used by `backend/services/appointment.py`: the
`Staff` and `Patient` collections (id paired with `full_name`), the
`Appointment` collection, and the `get_next_sequence` counter for
`appointment_id`. -/
structure BDb : Type where
  staff : List (Nat × String)
  patients : List (Nat × String)
  appointments : List BAppointment
  next_appointment_id : Nat
deriving DecidableEq

/-- A booking request with the five required fields of
`handle_add_appointment` (the missing-field 400 branch is outside the model,
which represents well-formed requests). -/
structure AddApptRequest : Type where
  practitioner_name : String
  patient_name : String
  date : Nat
  start_time : Nat
  end_time : Nat
deriving DecidableEq

/-- The outcome of `handle_add_appointment`, tagged with the HTTP status each
branch of the source returns. -/
inductive AddApptResult : Type
  | notFoundPractitioner
  | notFoundPatient
  | conflict409
  | created (a : BAppointment)
deriving DecidableEq

/-- Embeds `get_staff_id_by_name`: first staff document with the given `full_name`. -/
def get_staff_id_by_name (db : BDb) (full_name : String) : Option Nat :=
  (db.staff.find? fun s => decide (s.2 = full_name)).map fun s => s.1

/-- Embeds `get_patient_id_by_name`: first patient document with the given
`full_name`. -/
def get_patient_id_by_name (db : BDb) (full_name : String) : Option Nat :=
  (db.patients.find? fun p => decide (p.2 = full_name)).map fun p => p.1

/-- Embeds `handle_add_appointment`: resolve names to ids (404 on failure), reject
with 409 when an existing appointment has the same staff, date and — exactly —
the same `start_time` (`find_one` on those three fields), otherwise insert a
new `"scheduled"` appointment under the next sequence id. -/
def handle_add_appointment (db : BDb) (data : AddApptRequest) : AddApptResult × BDb :=
  match get_staff_id_by_name db data.practitioner_name with
  | none => (AddApptResult.notFoundPractitioner, db)
  | some staff_id =>
    match get_patient_id_by_name db data.patient_name with
    | none => (AddApptResult.notFoundPatient, db)
    | some patient_id =>
      if db.appointments.any fun a =>
          decide (a.staff_id = staff_id) && decide (a.date = data.date) &&
            decide (a.start_time = data.start_time) then
        (AddApptResult.conflict409, db)
      else
        let a : BAppointment :=
          { appointment_id := db.next_appointment_id
            staff_id := staff_id
            patient_id := patient_id
            date := data.date
            start_time := data.start_time
            end_time := data.end_time
            type := "scheduled" }
        (AddApptResult.created a,
          { db with
              appointments := db.appointments ++ [a]
              next_appointment_id := db.next_appointment_id + 1 })

end Backend

namespace ClinicApi

/-- A persisted `StaffAssignment` (weekly on-call coverage) document, from
`backend/clinic_api/models.py`; times are minutes since midnight. -/
structure StaffAssignment : Type where
  assignment_id : Nat
  date : Nat
  staff_name : String
  on_call_start : Nat
  on_call_end : Nat
  phone_number : String
deriving DecidableEq

/-- The payload of `StaffAssignmentCreate` (no id; it is assigned on create). -/
structure StaffAssignmentCreate : Type where
  date : Nat
  staff_name : String
  on_call_start : Nat
  on_call_end : Nat
  phone_number : String
deriving DecidableEq

/-- The `WeeklyCoverage` collection plus the `get_next_sequence` counter for
`assignment_id`. -/
structure CoverageDb : Type where
  assignments : List StaffAssignment
  next_assignment_id : Nat
deriving DecidableEq

/-- Embeds `StaffAssignmentCRUD.create`
(`backend/clinic_api/services/weekly_coverage.py`): assign the next id and
insert the document verbatim; the source performs no validation of any kind on
the on-call interval. -/
def StaffAssignmentCRUD_create (db : CoverageDb) (assignment : StaffAssignmentCreate) :
    StaffAssignment × CoverageDb :=
  let a : StaffAssignment :=
    { assignment_id := db.next_assignment_id
      date := assignment.date
      staff_name := assignment.staff_name
      on_call_start := assignment.on_call_start
      on_call_end := assignment.on_call_end
      phone_number := assignment.phone_number }
  (a, { assignments := db.assignments ++ [a]
        next_assignment_id := db.next_assignment_id + 1 })

/-- An appointment document of `backend/clinic_api` with exactly the fields of
`AppointmentBase` (`models.py`), where `appointment_id` is `Optional` with
default `None`.  An `AppointmentCreate` payload has the same shape. -/
structure CAppointment : Type where
  appointment_id : Option Nat
  patient_id : Nat
  staff_id : Nat
  scheduled_start : Nat
  scheduled_end : Nat
  is_walkin : Bool
deriving DecidableEq

/-- Embeds `AppointmentCRUD.update` (`backend/clinic_api/services/appointment.py`):
`$set` the full `model_dump()` of the payload — which contains every
`AppointmentBase` field, `appointment_id` included — on the first document
whose `appointment_id` matches.  Since the dump covers every modelled field,
the matched document becomes the payload. -/
def AppointmentCRUD_update (docs : List CAppointment) (appointment_id : Nat)
    (appointment : CAppointment) : List CAppointment :=
  (updateFirst (fun d => decide (d.appointment_id = some appointment_id))
    (fun _ => appointment) docs).2

end ClinicApi

namespace Raw

/-- A raw Mongo document: an association list from field names to values. -/
abbrev Doc := List (String × String)

/-- Field lookup in a raw document. -/
def docGet (d : Doc) (k : String) : Option String :=
  (d.find? fun p => decide (p.1 = k)).map fun p => p.2

/-- Mongo `$set` of a single field: replace the field's occurrences when
present, append it otherwise. -/
def setKey (d : Doc) (k v : String) : Doc :=
  if d.any fun p => decide (p.1 = k) then
    d.map fun p => if p.1 = k then (k, v) else p
  else d ++ [(k, v)]

/-- Mongo `$set` of an update document, field by field. -/
def setAll (d : Doc) (u : List (String × String)) : Doc :=
  u.foldl (fun d p => setKey d p.1 p.2) d

/-- The database as used by `backend/appointment.py`: the `Appointment`
collection as raw documents. -/
structure RawDb : Type where
  appointment_docs : List Doc
deriving DecidableEq

/-- Embeds `update_appointment` (`backend/appointment.py`): refuse empty updates,
filter out the restricted `Appointment_Id` field, refuse when nothing remains
(returning `False` and writing nothing), otherwise `$set` the remaining fields
on the first document whose `Appointment_Id` matches; the result is whether a
document matched. -/
def update_appointment (db : RawDb) (appointment_id : String)
    (updates : List (String × String)) : Bool × RawDb :=
  if updates.isEmpty then (false, db)
  else
    let valid_updates := updates.filter fun p => !(decide (p.1 = "Appointment_Id"))
    if valid_updates.isEmpty then (false, db)
    else
      let r := updateFirst
        (fun d => decide (docGet d "Appointment_Id" = some appointment_id))
        (fun d => setAll d valid_updates) db.appointment_docs
      (r.1.isSome, { appointment_docs := r.2 })

theorem docGet_cons (x : String × String) (l : Doc) (k : String) :
    docGet (x :: l) k = if x.1 = k then some x.2 else docGet l k := by
  by_cases hx : x.1 = k <;> simp [docGet, hx]

theorem docGet_map_set_ne (d : Doc) (k v k' : String) (h : k' ≠ k) :
    docGet (d.map fun p => if p.1 = k then (k, v) else p) k' = docGet d k' := by
  induction d with
  | nil => rfl
  | cons p l ih =>
    by_cases hp : p.1 = k
    · simp only [List.map_cons, if_pos hp]
      rw [docGet_cons, docGet_cons, if_neg (Ne.symm h), if_neg (hp ▸ Ne.symm h), ih]
    · simp only [List.map_cons, if_neg hp]
      rw [docGet_cons, docGet_cons, ih]

theorem docGet_append_ne (d : Doc) (k v k' : String) (h : k' ≠ k) :
    docGet (d ++ [(k, v)]) k' = docGet d k' := by
  induction d with
  | nil => simp [docGet, Ne.symm h]
  | cons p l ih =>
    simp only [List.cons_append]
    rw [docGet_cons, docGet_cons, ih]

theorem docGet_setKey_ne (d : Doc) (k v k' : String) (h : k' ≠ k) :
    docGet (setKey d k v) k' = docGet d k' := by
  unfold setKey
  split
  · exact docGet_map_set_ne d k v k' h
  · exact docGet_append_ne d k v k' h

theorem docGet_setAll_ne (u : List (String × String)) (d : Doc) (k' : String)
    (h : ∀ p ∈ u, p.1 ≠ k') :
    docGet (setAll d u) k' = docGet d k' := by
  induction u generalizing d with
  | nil => rfl
  | cons p u ih =>
    have hp : p.1 ≠ k' := h p (by simp)
    calc docGet (setAll d (p :: u)) k'
        = docGet (setAll (setKey d p.1 p.2) u) k' := rfl
      _ = docGet (setKey d p.1 p.2) k' := ih _ fun q hq => h q (by simp [hq])
      _ = docGet d k' := docGet_setKey_ne _ _ _ _ (Ne.symm hp)

end Raw

/-! ### Concrete fixtures for the scenario claims -/

namespace Backend2

/-- The shift of the slot-listing scenario: staff 1, date 0, 09:00–09:30
(540–570 minutes), no breaks. -/
def scenarioSchedule : PractitionerDailySchedule :=
  { staff_id := 1
    schedule_date := 0
    start_time := 540
    end_time := 570
    is_available := true
    available_for_walk_ins := false
    current_walk_ins := 0
    max_walk_ins := 0
    break_slots := [] }

/-- Empty calendar over the scenario shift. -/
def scenarioStore : Store :=
  { appointments := [], schedules := [scenarioSchedule], next_id := 1 }

/-- The scenario store after booking 09:10–09:20 (550–560) through
`create_appointment`. -/
def scenarioStoreBooked : Store :=
  (create_appointment scenarioStore
    { patient_id := 7
      staff_id := 1
      scheduled_date := 0
      scheduled_start := 550
      scheduled_end := 560
      appointment_type := AppointmentType.regular
      status := AppointmentStatus.scheduled
      is_walk_in := false }).2

end Backend2

/-- Claim C2: over the shift `[09:00, 09:30)` with the 10-minute grid and an
empty calendar, `find_available_slots` yields exactly the three slots
09:00–09:10, 09:10–09:20, 09:20–09:30 in ascending start order, and after the
appointment 09:10–09:20 is committed it yields exactly 09:00–09:10 and
09:20–09:30. -/
theorem C2_theorem :
    (Backend2.find_available_slots Backend2.scenarioStore 1 0 10).map
        (fun s => (s.start_time, s.end_time)) = [(540, 550), (550, 560), (560, 570)] ∧
    (Backend2.find_available_slots Backend2.scenarioStoreBooked 1 0 10).map
        (fun s => (s.start_time, s.end_time)) = [(540, 550), (560, 570)] := by
  decide

namespace Backend2

/-- A calendar whose only appointment is a `NO_SHOW` at 09:00–09:10 over the
scenario shift. -/
def noShowStore : Store :=
  { appointments :=
      [{ appointment_id := 1
         patient_id := 7
         staff_id := 1
         scheduled_date := 0
         scheduled_start := 540
         scheduled_end := 550
         appointment_type := AppointmentType.regular
         status := AppointmentStatus.noShow
         is_walk_in := false }]
    schedules := [scenarioSchedule]
    next_id := 2 }

end Backend2

/-- Claim C3 fails on the code: an interval occupied only by a `NO_SHOW`
appointment is still reported as a conflict by `check_appointment_conflict`,
and `find_available_slots` withholds the slot it covers (09:00–09:10 is
missing), so the interval is neither reported available nor bookable. -/
theorem C3_counterexample :
    Backend2.check_appointment_conflict Backend2.noShowStore 1 0 540 550 none = true ∧
    (Backend2.find_available_slots Backend2.noShowStore 1 0 10).map
        (fun s => (s.start_time, s.end_time)) = [(550, 560), (560, 570)] := by
  decide

/-- Claim C3 (amended): `check_appointment_conflict` excludes exactly the
`CANCELLED` status, but scans only the first 100 matching documents
(`find_many`'s default `limit=100`).  Unconditionally, a reported conflict is
caused by some non-`CANCELLED` appointment (`NO_SHOW` included) of the
practitioner on the date overlapping the proposed half-open interval; and
whenever at most 100 appointments match the staff/date/non-cancelled filter,
a conflict is reported precisely when such an overlapping appointment
exists. -/
theorem C3_theorem (store : Backend2.Store) (staff_id date st en : Nat) :
    (Backend2.check_appointment_conflict store staff_id date st en none = true →
      ∃ a ∈ store.appointments, a.staff_id = staff_id ∧ a.scheduled_date = date ∧
        a.status ≠ Backend2.AppointmentStatus.cancelled ∧
        a.scheduled_start < en ∧ st < a.scheduled_end) ∧
    ((store.appointments.filter fun a =>
        decide (a.staff_id = staff_id ∧ a.scheduled_date = date ∧
          a.status ≠ Backend2.AppointmentStatus.cancelled)).length ≤ 100 →
      (Backend2.check_appointment_conflict store staff_id date st en none = true ↔
        ∃ a ∈ store.appointments, a.staff_id = staff_id ∧ a.scheduled_date = date ∧
          a.status ≠ Backend2.AppointmentStatus.cancelled ∧
          a.scheduled_start < en ∧ st < a.scheduled_end)) := by
  have hbridge : (fun a : Backend2.Appointment =>
      decide (a.staff_id = staff_id) && decide (a.scheduled_date = date) &&
        !(decide (a.status = Backend2.AppointmentStatus.cancelled)) && true) =
      (fun a : Backend2.Appointment =>
        decide (a.staff_id = staff_id ∧ a.scheduled_date = date ∧
          a.status ≠ Backend2.AppointmentStatus.cancelled)) := by
    funext a
    by_cases h1 : a.staff_id = staff_id <;> by_cases h2 : a.scheduled_date = date <;>
      by_cases h3 : a.status = Backend2.AppointmentStatus.cancelled <;>
      simp [h1, h2, h3]
  have hsound : Backend2.check_appointment_conflict store staff_id date st en none = true →
      ∃ a ∈ store.appointments, a.staff_id = staff_id ∧ a.scheduled_date = date ∧
        a.status ≠ Backend2.AppointmentStatus.cancelled ∧
        a.scheduled_start < en ∧ st < a.scheduled_end := by
    intro h
    unfold Backend2.check_appointment_conflict at h
    rw [List.any_eq_true] at h
    obtain ⟨a, ha, hov⟩ := h
    have ha' := List.take_subset _ _ ha
    rw [List.mem_filter] at ha'
    obtain ⟨hmem, hflt⟩ := ha'
    simp only [Bool.and_eq_true, decide_eq_true_eq, Bool.not_eq_true',
      decide_eq_false_iff_not] at hflt
    simp only [Bool.not_eq_true', Bool.or_eq_false_iff, decide_eq_false_iff_not,
      Nat.not_le] at hov
    exact ⟨a, hmem, hflt.1.1.1, hflt.1.1.2, hflt.1.2, hov.1, hov.2⟩
  refine ⟨hsound, fun hlen => ⟨hsound, ?_⟩⟩
  rintro ⟨a, hmem, h1, h2, h3, h4, h5⟩
  unfold Backend2.check_appointment_conflict
  rw [List.any_eq_true]
  dsimp only
  rw [hbridge, List.take_of_length_le hlen]
  refine ⟨a, List.mem_filter.mpr ⟨hmem, decide_eq_true ⟨h1, h2, h3⟩⟩, ?_⟩
  simp only [Bool.not_eq_true', Bool.or_eq_false_iff, decide_eq_false_iff_not,
    Nat.not_le]
  exact ⟨h4, h5⟩

/-- Witness for `C3_theorem` at the concrete store: it holds one matching
appointment (well under the 100-document cap), so the exact characterisation
applies there. -/
theorem C3_witness :
    Backend2.check_appointment_conflict Backend2.noShowStore 1 0 540 550 none = true ↔
      ∃ a ∈ Backend2.noShowStore.appointments, a.staff_id = 1 ∧ a.scheduled_date = 0 ∧
        a.status ≠ Backend2.AppointmentStatus.cancelled ∧
        a.scheduled_start < 550 ∧ 540 < a.scheduled_end :=
  (C3_theorem Backend2.noShowStore 1 0 540 550).2 (by decide)

namespace Backend

/-- One practitioner, one patient, empty calendar. -/
def bookDb : BDb :=
  { staff := [(1, "Alice")], patients := [(7, "Pat")], appointments := [],
    next_appointment_id := 1 }

/-- Booking request 09:00–09:20 (540–560). -/
def bookReq1 : AddApptRequest :=
  { practitioner_name := "Alice", patient_name := "Pat", date := 0,
    start_time := 540, end_time := 560 }

/-- Booking request 09:10–09:30 (550–570), overlapping `bookReq1` but with a
different start time. -/
def bookReq2 : AddApptRequest :=
  { practitioner_name := "Alice", patient_name := "Pat", date := 0,
    start_time := 550, end_time := 570 }

/-- The database after the first booking succeeded. -/
def bookDb1 : BDb := (handle_add_appointment bookDb bookReq1).2

end Backend

/-- Claim C1 fails on the code: two successive `handle_add_appointment` calls
for the same practitioner and date with overlapping intervals (540–560 and
550–570) both succeed — neither returns the 409 conflict result — leaving two
committed overlapping appointments; and `create_appointment` likewise inserts
an interval (555–565) overlapping a committed one (550–560) without any
conflict check. -/
theorem C1_counterexample :
    (Backend.handle_add_appointment Backend.bookDb Backend.bookReq1).1 ≠
      Backend.AddApptResult.conflict409 ∧
    (Backend.handle_add_appointment Backend.bookDb1 Backend.bookReq2).1 ≠
      Backend.AddApptResult.conflict409 ∧
    ((Backend.handle_add_appointment Backend.bookDb1 Backend.bookReq2).2.appointments.map
        fun a => (a.staff_id, a.start_time, a.end_time)) =
      [(1, 540, 560), (1, 550, 570)] ∧
    (550 < 560 ∧ 540 < 570) ∧
    ((Backend2.create_appointment Backend2.scenarioStoreBooked
        { patient_id := 8
          staff_id := 1
          scheduled_date := 0
          scheduled_start := 555
          scheduled_end := 565
          appointment_type := Backend2.AppointmentType.regular
          status := Backend2.AppointmentStatus.scheduled
          is_walk_in := false }).2.appointments.map
        fun a => (a.scheduled_start, a.scheduled_end)) = [(550, 560), (555, 565)] := by
  decide

/-- Claim C1 (amended): `handle_add_appointment` returns the 409 conflict
result exactly when some existing appointment of the resolved practitioner on
the same date has the identical `start_time`; overlap at any other start time
is not detected, so successful books need not leave a pairwise non-overlapping
committed set. -/
theorem C1_theorem (db : Backend.BDb) (data : Backend.AddApptRequest) (sid pid : Nat)
    (hs : Backend.get_staff_id_by_name db data.practitioner_name = some sid)
    (hp : Backend.get_patient_id_by_name db data.patient_name = some pid) :
    (Backend.handle_add_appointment db data).1 = Backend.AddApptResult.conflict409 ↔
      ∃ a ∈ db.appointments, a.staff_id = sid ∧ a.date = data.date ∧
        a.start_time = data.start_time := by
  unfold Backend.handle_add_appointment
  simp only [hs, hp]
  split
  · next hc =>
      rw [List.any_eq_true] at hc
      simp only [Bool.and_eq_true, decide_eq_true_eq] at hc
      obtain ⟨a, ha, hcond⟩ := hc
      simp only [true_iff, iff_true]
      exact ⟨a, ha, hcond.1.1, hcond.1.2, hcond.2⟩
  · next hc =>
      rw [Bool.not_eq_true, List.any_eq_false] at hc
      simp only [reduceCtorEq, false_iff, not_exists]
      rintro a ⟨ha, h1, h2, h3⟩
      have := hc a ha
      simp only [Bool.and_eq_true, decide_eq_true_eq] at this
      exact this ⟨⟨h1, h2⟩, h3⟩

/-- Witness for `C1_theorem` at a concrete database: with one committed
appointment starting at 540, re-booking start 540 is characterised by the
equal-start condition. -/
theorem C1_witness :
    (Backend.handle_add_appointment Backend.bookDb1 Backend.bookReq1).1 =
        Backend.AddApptResult.conflict409 ↔
      ∃ a ∈ Backend.bookDb1.appointments, a.staff_id = 1 ∧
        a.date = Backend.bookReq1.date ∧ a.start_time = Backend.bookReq1.start_time :=
  C1_theorem Backend.bookDb1 Backend.bookReq1 1 7 (by decide) (by decide)

namespace Backend

/-- Booking request 09:05–09:15 (545–555): misaligned with the 10-minute grid
anchored at 09:00. -/
def misalignedReq : AddApptRequest :=
  { practitioner_name := "Alice", patient_name := "Pat", date := 0,
    start_time := 545, end_time := 555 }

end Backend

/-- Claim C5 fails on the code: the misaligned request 09:05–09:15 (545–555)
is not rejected — `handle_add_appointment` creates and stores the appointment
(no `InvalidIntervalError` path exists), even though 545 is off the 10-minute
grid anchored at the shift start 540. -/
theorem C5_counterexample :
    (Backend.handle_add_appointment Backend.bookDb Backend.misalignedReq).1 =
      Backend.AddApptResult.created
        { appointment_id := 1, staff_id := 1, patient_id := 7, date := 0,
          start_time := 545, end_time := 555, type := "scheduled" } ∧
    ((Backend.handle_add_appointment Backend.bookDb Backend.misalignedReq).2.appointments.map
        fun a => a.start_time) = [545] ∧
    ¬((545 - 540) % 10 = 0) := by
  decide

/-- Claim C5 (amended): `handle_add_appointment` performs no alignment (or any
interval) validation — whenever the names resolve and no existing appointment
has the identical start time, the book succeeds and appends an appointment
carrying the requested times verbatim, aligned or not. -/
theorem C5_theorem (db : Backend.BDb) (data : Backend.AddApptRequest) (sid pid : Nat)
    (hs : Backend.get_staff_id_by_name db data.practitioner_name = some sid)
    (hp : Backend.get_patient_id_by_name db data.patient_name = some pid)
    (hc : ∀ a ∈ db.appointments,
      ¬(a.staff_id = sid ∧ a.date = data.date ∧ a.start_time = data.start_time)) :
    ∃ a, (Backend.handle_add_appointment db data).1 = Backend.AddApptResult.created a ∧
      a.start_time = data.start_time ∧ a.end_time = data.end_time ∧
      (Backend.handle_add_appointment db data).2.appointments = db.appointments ++ [a] := by
  have hany : (db.appointments.any fun a =>
      decide (a.staff_id = sid) && decide (a.date = data.date) &&
        decide (a.start_time = data.start_time)) = false := by
    rw [List.any_eq_false]
    intro a ha
    simp only [Bool.and_eq_true, decide_eq_true_eq]
    rintro ⟨⟨h1, h2⟩, h3⟩
    exact hc a ha ⟨h1, h2, h3⟩
  unfold Backend.handle_add_appointment
  simp only [hs, hp, hany, Bool.false_eq_true, if_false]
  exact ⟨_, rfl, rfl, rfl, rfl⟩

/-- Witness for `C5_theorem`: the misaligned request against the concrete
database satisfies the hypotheses, and the book succeeds with the misaligned
times stored. -/
theorem C5_witness :
    ∃ a, (Backend.handle_add_appointment Backend.bookDb Backend.misalignedReq).1 =
        Backend.AddApptResult.created a ∧
      a.start_time = Backend.misalignedReq.start_time ∧
      a.end_time = Backend.misalignedReq.end_time ∧
      (Backend.handle_add_appointment Backend.bookDb Backend.misalignedReq).2.appointments =
        Backend.bookDb.appointments ++ [a] :=
  C5_theorem Backend.bookDb Backend.misalignedReq 1 7 (by decide) (by decide)
    (by intro a ha; simp [Backend.bookDb] at ha)

namespace Backend2

/-- A store whose only appointment, id 1, is `COMPLETED`. -/
def completedStore : Store :=
  { appointments :=
      [{ appointment_id := 1
         patient_id := 7
         staff_id := 1
         scheduled_date := 0
         scheduled_start := 540
         scheduled_end := 550
         appointment_type := AppointmentType.regular
         status := AppointmentStatus.completed
         is_walk_in := false }]
    schedules := []
    next_id := 2 }

/-- A store whose only appointment, id 1, is `CANCELLED`. -/
def cancelledStore : Store :=
  { appointments :=
      [{ appointment_id := 1
         patient_id := 7
         staff_id := 1
         scheduled_date := 0
         scheduled_start := 540
         scheduled_end := 550
         appointment_type := AppointmentType.regular
         status := AppointmentStatus.cancelled
         is_walk_in := false }]
    schedules := []
    next_id := 2 }

/-- The appointment of `completedStore` after `cancel_appointment` rewrote it. -/
def completedThenCancelled : Appointment :=
  { appointment_id := 1
    patient_id := 7
    staff_id := 1
    scheduled_date := 0
    scheduled_start := 540
    scheduled_end := 550
    appointment_type := AppointmentType.regular
    status := AppointmentStatus.cancelled
    is_walk_in := false }

end Backend2

/-- Claim C4 fails on the code: cancelling a `COMPLETED` appointment rewrites
its status to `CANCELLED`, and marking a `CANCELLED` appointment as no-show
rewrites its status to `NO_SHOW` — the terminal states are not absorbing. -/
theorem C4_counterexample :
    ((Backend2.cancel_appointment Backend2.completedStore 1).2.appointments.map
        fun a => a.status) = [Backend2.AppointmentStatus.cancelled] ∧
    ((Backend2.mark_no_show Backend2.cancelledStore 1).2.appointments.map
        fun a => a.status) = [Backend2.AppointmentStatus.noShow] := by
  decide

/-- Claim C4 (amended): `cancel_appointment` and `mark_no_show` carry no guard
on the current status — whenever an appointment with the given id exists, the
returned document has status `CANCELLED` (resp. `NO_SHOW`) and is committed to
the store, regardless of the status it had before, `COMPLETED`, `CANCELLED`
and `NO_SHOW` included. -/
theorem C4_theorem (store : Backend2.Store) (appointment_id : Nat) :
    (∀ a, (Backend2.cancel_appointment store appointment_id).1 = some a →
      a.status = Backend2.AppointmentStatus.cancelled ∧
      a ∈ (Backend2.cancel_appointment store appointment_id).2.appointments) ∧
    (∀ a, (Backend2.mark_no_show store appointment_id).1 = some a →
      a.status = Backend2.AppointmentStatus.noShow ∧
      a ∈ (Backend2.mark_no_show store appointment_id).2.appointments) := by
  constructor
  · intro a h
    simp only [Backend2.cancel_appointment] at h ⊢
    obtain ⟨b, _, _, hab, hmem⟩ := updateFirst_eq_some _ _ _ _ h
    subst hab
    exact ⟨rfl, hmem⟩
  · intro a h
    simp only [Backend2.mark_no_show] at h ⊢
    obtain ⟨b, _, _, hab, hmem⟩ := updateFirst_eq_some _ _ _ _ h
    subst hab
    exact ⟨rfl, hmem⟩

/-- Witness for `C4_theorem`: cancelling the `COMPLETED` appointment of the
concrete store yields the same document with status rewritten to `CANCELLED`,
committed to the store. -/
theorem C4_witness :
    Backend2.completedThenCancelled.status = Backend2.AppointmentStatus.cancelled ∧
    Backend2.completedThenCancelled ∈
      (Backend2.cancel_appointment Backend2.completedStore 1).2.appointments :=
  (C4_theorem Backend2.completedStore 1).1 Backend2.completedThenCancelled (by decide)

namespace Backend2

/-- A store with no schedule at all for any practitioner. -/
def noScheduleStore : Store :=
  { appointments := [], schedules := [], next_id := 1 }

/-- A store whose schedule for staff 1 on date 0 is fully booked: a single
committed appointment covers the whole shift. -/
def fullyBookedStore : Store :=
  { appointments :=
      [{ appointment_id := 1
         patient_id := 7
         staff_id := 1
         scheduled_date := 0
         scheduled_start := 540
         scheduled_end := 570
         appointment_type := AppointmentType.regular
         status := AppointmentStatus.scheduled
         is_walk_in := false }]
    schedules := [scenarioSchedule]
    next_id := 2 }

end Backend2

/-- Claim C6 fails on the code: with no schedule for the practitioner/date,
`find_available_slots` returns the empty list — exactly the value a fully
booked schedule produces, so the two cases are indistinguishable (no
`NoScheduleError` exists); and `handle_add_appointment` books successfully
against a database that holds no shift for any practitioner. -/
theorem C6_counterexample :
    Backend2.find_available_slots Backend2.noScheduleStore 1 0 10 = [] ∧
    Backend2.find_available_slots Backend2.fullyBookedStore 1 0 10 = [] ∧
    (Backend.handle_add_appointment Backend.bookDb Backend.bookReq1).1 =
      Backend.AddApptResult.created
        { appointment_id := 1, staff_id := 1, patient_id := 7, date := 0,
          start_time := 540, end_time := 560, type := "scheduled" } := by
  decide

/-- Claim C6 (amended): when the practitioner has no schedule record for the
date, `find_available_slots` returns the empty list, the same result as a
schedule with no free slot. -/
theorem C6_theorem (store : Backend2.Store) (staff_id date duration : Nat)
    (h : ∀ sch ∈ store.schedules, ¬(sch.staff_id = staff_id ∧ sch.schedule_date = date)) :
    Backend2.find_available_slots store staff_id date duration = [] := by
  have hfind : Backend2.find_by_staff_and_date store staff_id date = none := by
    unfold Backend2.find_by_staff_and_date
    rw [List.find?_eq_none]
    intro sch hs
    simp only [Bool.and_eq_true, decide_eq_true_eq, not_and]
    intro h1 h2
    exact h sch hs ⟨h1, h2⟩
  unfold Backend2.find_available_slots
  rw [hfind]

/-- Witness for `C6_theorem`: the store with no schedule records satisfies the
hypothesis and yields no slots. -/
theorem C6_witness :
    Backend2.find_available_slots Backend2.noScheduleStore 1 0 10 = [] :=
  C6_theorem Backend2.noScheduleStore 1 0 10
    (by intro sch hs; simp [Backend2.noScheduleStore] at hs)

namespace Backend2

theorem firstWithSlot_eq_some (store : Store) (today now : Nat)
    (l : List PractitionerDailySchedule) (r : Nat × Slot)
    (h : firstWithSlot store today now l = some r) :
    ∃ l1 p l2, l = l1 ++ p :: l2 ∧
      (∀ q ∈ l1, walkInCandidateSlots store today now q.staff_id = []) ∧
      r.1 = p.staff_id ∧
      ∃ rest, walkInCandidateSlots store today now p.staff_id = r.2 :: rest := by
  induction l with
  | nil => simp [firstWithSlot] at h
  | cons p ps ih =>
    cases hslots : walkInCandidateSlots store today now p.staff_id with
    | cons slot rest2 =>
      simp only [firstWithSlot, hslots] at h
      cases h
      exact ⟨[], p, ps, rfl, by simp, rfl, rest2, hslots⟩
    | nil =>
      simp only [firstWithSlot, hslots] at h
      obtain ⟨l1, q, l2, heq, hall, hr1, rest, hrest⟩ := ih h
      refine ⟨p :: l1, q, l2, by rw [heq, List.cons_append], ?_, hr1, rest, hrest⟩
      intro x hx
      rcases List.mem_cons.mp hx with hx | hx
      · subst hx; exact hslots
      · exact hall x hx

/-- Shape of a successful no-preference walk-in assignment: the committed
practitioner is the first of `find_available_for_walk_ins` (in store order)
with any candidate slot, and the committed slot is that practitioner's first
candidate slot. -/
theorem create_walk_in_none_spec (store : Store) (patient_id today now : Nat)
    (a : Appointment)
    (h : (create_walk_in_appointment store patient_id none today now).1 = some a) :
    ∃ l1 p l2, find_available_for_walk_ins store today = l1 ++ p :: l2 ∧
      (∀ q ∈ l1, walkInCandidateSlots store today now q.staff_id = []) ∧
      a.staff_id = p.staff_id ∧
      ∃ slot rest,
        walkInCandidateSlots store today now p.staff_id = slot :: rest ∧
        a.scheduled_start = slot.start_time ∧ a.scheduled_end = slot.end_time := by
  unfold create_walk_in_appointment at h
  cases hpick : firstWithSlot store today now (find_available_for_walk_ins store today) with
  | none => rw [hpick] at h; simp at h
  | some r =>
    obtain ⟨sid, slot⟩ := r
    rw [hpick] at h
    simp only [create_appointment, Option.some.injEq] at h
    obtain ⟨l1, p, l2, heq, hall, hr1, rest, hrest⟩ :=
      firstWithSlot_eq_some store today now _ _ hpick
    subst h
    exact ⟨l1, p, l2, heq, hall, hr1, slot, rest, hrest, rfl, rfl⟩

/-- The first practitioner of `walkInStore`, staff 1, whose only slot starts
at 10:00 (600). -/
def lateSched : PractitionerDailySchedule :=
  { staff_id := 1
    schedule_date := 0
    start_time := 600
    end_time := 610
    is_available := true
    available_for_walk_ins := true
    current_walk_ins := 0
    max_walk_ins := 5
    break_slots := [] }

/-- The second practitioner of `walkInStore`, staff 2, whose only slot starts
at 09:00 (540), earlier than staff 1's. -/
def earlySched : PractitionerDailySchedule :=
  { staff_id := 2
    schedule_date := 0
    start_time := 540
    end_time := 550
    is_available := true
    available_for_walk_ins := true
    current_walk_ins := 0
    max_walk_ins := 5
    break_slots := [] }

/-- Two walk-in-enabled practitioners, staff 1 stored first. -/
def walkInStore : Store :=
  { appointments := [], schedules := [lateSched, earlySched], next_id := 1 }

/-- The walk-in appointment `create_walk_in_appointment` commits on
`walkInStore` with no preference. -/
def walkInPicked : Appointment :=
  { appointment_id := 1
    patient_id := 7
    staff_id := 1
    scheduled_date := 0
    scheduled_start := 600
    scheduled_end := 610
    appointment_type := AppointmentType.walkIn
    status := AppointmentStatus.confirmed
    is_walk_in := true }

end Backend2

/-- Claim C7 fails on the code: with no preference, `create_walk_in_appointment`
commits staff 1's slot starting at 600, although staff 2 has an open walk-in
slot starting at 540 — the earliest slot across candidates does not win; the
first practitioner in store order with any open slot does. -/
theorem C7_counterexample :
    ((Backend2.create_walk_in_appointment Backend2.walkInStore 7 none 0 0).1.map
        fun a => (a.staff_id, a.scheduled_start)) = some (1, 600) ∧
    (Backend2.walkInCandidateSlots Backend2.walkInStore 0 0 2).map
        (fun s => s.start_time) = [540] ∧
    540 < 600 := by
  decide

/-- Claim C7 (amended): with no preference, `create_walk_in_appointment`
commits, for the first practitioner in the stored order of
`find_available_for_walk_ins` that has any available slot at or after `now`,
that practitioner's earliest such slot; all practitioners stored before it
have no such slot, but later ones may hold earlier slots. -/
theorem C7_theorem (store : Backend2.Store) (patient_id today now : Nat)
    (a : Backend2.Appointment)
    (h : (Backend2.create_walk_in_appointment store patient_id none today now).1 = some a) :
    ∃ l1 p l2, Backend2.find_available_for_walk_ins store today = l1 ++ p :: l2 ∧
      (∀ q ∈ l1, Backend2.walkInCandidateSlots store today now q.staff_id = []) ∧
      a.staff_id = p.staff_id ∧
      ∃ slot rest,
        Backend2.walkInCandidateSlots store today now p.staff_id = slot :: rest ∧
        a.scheduled_start = slot.start_time ∧ a.scheduled_end = slot.end_time :=
  Backend2.create_walk_in_none_spec store patient_id today now a h

/-- Witness for `C7_theorem` at the concrete two-practitioner store. -/
theorem C7_witness :
    ∃ l1 p l2, Backend2.find_available_for_walk_ins Backend2.walkInStore 0 = l1 ++ p :: l2 ∧
      (∀ q ∈ l1, Backend2.walkInCandidateSlots Backend2.walkInStore 0 0 q.staff_id = []) ∧
      Backend2.walkInPicked.staff_id = p.staff_id ∧
      ∃ slot rest,
        Backend2.walkInCandidateSlots Backend2.walkInStore 0 0 p.staff_id = slot :: rest ∧
        Backend2.walkInPicked.scheduled_start = slot.start_time ∧
        Backend2.walkInPicked.scheduled_end = slot.end_time :=
  C7_theorem Backend2.walkInStore 7 0 0 Backend2.walkInPicked (by decide)

namespace Backend2

/-- A walk-in-enabled practitioner, staff 3, already at walk-in capacity
(`current_walk_ins = max_walk_ins = 2`) but with a free slot 540–550. -/
def atCapacitySched : PractitionerDailySchedule :=
  { staff_id := 3
    schedule_date := 0
    start_time := 540
    end_time := 550
    is_available := true
    available_for_walk_ins := true
    current_walk_ins := 2
    max_walk_ins := 2
    break_slots := [] }

/-- Store containing only the at-capacity practitioner. -/
def atCapacityStore : Store :=
  { appointments := [], schedules := [atCapacitySched], next_id := 1 }

end Backend2

/-- Claim C8 fails on the code: passing the at-capacity practitioner as the
preferred practitioner still commits a walk-in to them
(`create_walk_in_appointment` succeeds although `current_walk_ins` equals
`max_walk_ins`), and the schedule collection — hence the walk-in count — is
left untouched by the successful assignment. -/
theorem C8_counterexample :
    ((Backend2.create_walk_in_appointment Backend2.atCapacityStore 7 (some 3) 0 0).1.map
        fun a => (a.staff_id, a.scheduled_start)) = some (3, 540) ∧
    (Backend2.create_walk_in_appointment Backend2.atCapacityStore 7 (some 3) 0 0).2.schedules =
      Backend2.atCapacityStore.schedules ∧
    Backend2.atCapacitySched.current_walk_ins = Backend2.atCapacitySched.max_walk_ins := by
  decide

/-- Claim C8 (amended): the capacity bound is consulted only on the
no-preference path — there, the committed practitioner always satisfies
`current_walk_ins < max_walk_ins` (besides being available and walk-in
enabled) — while `create_walk_in_appointment` never updates the schedule
collection, so no path increments the walk-in count. -/
theorem C8_theorem (store : Backend2.Store) (patient_id today now : Nat) :
    (∀ a, (Backend2.create_walk_in_appointment store patient_id none today now).1 = some a →
      ∃ p ∈ store.schedules, p.staff_id = a.staff_id ∧ p.schedule_date = today ∧
        p.is_available = true ∧ p.available_for_walk_ins = true ∧
        p.current_walk_ins < p.max_walk_ins) ∧
    (∀ pref, (Backend2.create_walk_in_appointment store patient_id pref today now).2.schedules =
      store.schedules) := by
  constructor
  · intro a h
    obtain ⟨l1, p, l2, heq, _, hstaff, _⟩ :=
      Backend2.create_walk_in_none_spec store patient_id today now a h
    have hp : p ∈ Backend2.find_available_for_walk_ins store today := by
      rw [heq]; exact List.mem_append_right l1 (List.mem_cons_self p l2)
    unfold Backend2.find_available_for_walk_ins at hp
    have hp' := List.take_subset _ _ hp
    rw [List.mem_filter] at hp'
    obtain ⟨hmem, hpred⟩ := hp'
    simp only [Bool.and_eq_true, decide_eq_true_eq] at hpred
    exact ⟨p, hmem, hstaff.symm, hpred.1.1.1, hpred.1.1.2, hpred.1.2, hpred.2⟩
  · intro pref
    unfold Backend2.create_walk_in_appointment
    cases pref with
    | some q =>
      cases hs : Backend2.walkInCandidateSlots store today now q with
      | nil => simp [hs]
      | cons slot rest => simp [hs, Backend2.create_appointment]
    | none =>
      cases hf : Backend2.firstWithSlot store today now
          (Backend2.find_available_for_walk_ins store today) with
      | none => simp [hf]
      | some r =>
        obtain ⟨sid, slot⟩ := r
        simp [hf, Backend2.create_appointment]

/-- Witness for `C8_theorem`: the successful no-preference assignment on the
two-practitioner store went to an under-capacity practitioner, and the
preferred-path call on the at-capacity store left the schedules untouched. -/
theorem C8_witness :
    (∃ p ∈ Backend2.walkInStore.schedules, p.staff_id = Backend2.walkInPicked.staff_id ∧
      p.schedule_date = 0 ∧ p.is_available = true ∧ p.available_for_walk_ins = true ∧
      p.current_walk_ins < p.max_walk_ins) ∧
    (Backend2.create_walk_in_appointment Backend2.atCapacityStore 7 (some 3) 0 0).2.schedules =
      Backend2.atCapacityStore.schedules :=
  ⟨(C8_theorem Backend2.walkInStore 7 0 0).1 Backend2.walkInPicked (by decide),
   (C8_theorem Backend2.atCapacityStore 7 0 0).2 (some 3)⟩

namespace ClinicApi

/-- An empty coverage collection. -/
def emptyCoverageDb : CoverageDb :=
  { assignments := [], next_assignment_id := 1 }

/-- An on-call payload whose window is inverted: start 17:00 (1020), end 09:00
(540). -/
def invertedAssignment : StaffAssignmentCreate :=
  { date := 0, staff_name := "Night Nurse", on_call_start := 1020,
    on_call_end := 540, phone_number := "555-0000" }

end ClinicApi

/-- Claim C9 fails on the code: `StaffAssignmentCRUD.create` accepts the
inverted window 17:00–09:00 — the assignment is persisted verbatim, there is
no `InvalidIntervalError`, and the persisted record violates
`on_call_start < on_call_end`. -/
theorem C9_counterexample :
    ((ClinicApi.StaffAssignmentCRUD_create ClinicApi.emptyCoverageDb
        ClinicApi.invertedAssignment).2.assignments.map
        fun a => (a.on_call_start, a.on_call_end)) = [(1020, 540)] ∧
    ¬(1020 < 540) := by
  decide

/-- Claim C9 (amended): on-call writes perform no interval validation —
`StaffAssignmentCRUD.create` succeeds on every payload, persisting the given
`on_call_start`/`on_call_end` verbatim (inverted windows included), so
persisted assignments need not satisfy `on_call_start < on_call_end`. -/
theorem C9_theorem (db : ClinicApi.CoverageDb) (x : ClinicApi.StaffAssignmentCreate) :
    (ClinicApi.StaffAssignmentCRUD_create db x).1.on_call_start = x.on_call_start ∧
    (ClinicApi.StaffAssignmentCRUD_create db x).1.on_call_end = x.on_call_end ∧
    (ClinicApi.StaffAssignmentCRUD_create db x).2.assignments =
      db.assignments ++ [(ClinicApi.StaffAssignmentCRUD_create db x).1] :=
  ⟨rfl, rfl, rfl⟩

namespace ClinicApi

/-- A stored appointment document with id 1. -/
def storedCAppt : CAppointment :=
  { appointment_id := some 1, patient_id := 7, staff_id := 1,
    scheduled_start := 540, scheduled_end := 550, is_walkin := false }

/-- An `AppointmentCreate` update payload whose `appointment_id` field keeps
its default `None`. -/
def updatePayload : CAppointment :=
  { appointment_id := none, patient_id := 7, staff_id := 1,
    scheduled_start := 555, scheduled_end := 565, is_walkin := false }

end ClinicApi

/-- Claim C10 fails on the code: `AppointmentCRUD.update`'s `$set` is the full
payload dump, which always contains `appointment_id` — updating document 1
with a payload whose `appointment_id` is `None` overwrites the stored id, so
the id is not immutable on this path. -/
theorem C10_counterexample :
    ((ClinicApi.AppointmentCRUD_update [ClinicApi.storedCAppt] 1
        ClinicApi.updatePayload).map fun d => d.appointment_id) = [none] ∧
    ClinicApi.storedCAppt.appointment_id = some 1 := by
  decide

/-- Claim C10 (amended): `update_appointment` in `backend/appointment.py` does
keep ids immutable — every stored document's `Appointment_Id` value is
unchanged by any update, and an update supplying only `Appointment_Id` returns
`False` and writes nothing — but `AppointmentCRUD.update`'s `$set` includes
`appointment_id` and can overwrite it. -/
theorem C10_theorem (db : Raw.RawDb) (appointment_id : String)
    (updates : List (String × String)) :
    List.Forall₂
      (fun d d' => Raw.docGet d' "Appointment_Id" = Raw.docGet d "Appointment_Id")
      db.appointment_docs
      (Raw.update_appointment db appointment_id updates).2.appointment_docs ∧
    (∀ v, Raw.update_appointment db appointment_id [("Appointment_Id", v)] = (false, db)) := by
  constructor
  · unfold Raw.update_appointment
    split
    · exact List.forall₂_same.mpr fun d _ => rfl
    · dsimp only
      split
      · exact List.forall₂_same.mpr fun d _ => rfl
      · apply updateFirst_forall₂
        · intro d
          rfl
        · intro d
          apply Raw.docGet_setAll_ne
          intro pq hpq
          rw [List.mem_filter] at hpq
          simpa using hpq.2
  · intro v
    unfold Raw.update_appointment
    simp

end Clinic
